import Mathlib

/-!
Shallow embedding of `src/main.py` — "The Secret Spot" content API.

The program keeps a single JSON document (hero video URL, a fixed-key slot
mapping, an ordered gallery) on disk, guarded by one lock, and exposes it
through FastAPI endpoints.  Here the persisted file is a `FileState`
(absent, unparseable, or a parsed document), JSON objects with possibly
missing fields are records of `Option`-wrapped fields, Python dicts are
insertion-ordered association lists, and each endpoint is a pure function
from its request data and the file state to a result, the new file state,
and flags recording whether the media backend's Store and the content
store's Save were invoked.
-/

namespace SecretSpot

/-- Insertion-ordered string dictionary with nullable string values: the model
of the Python dict held in `data["slots"]` after `json.load`. -/
abbrev Slots := List (String × Option String)

/-- Membership test `k in m` on a dict. -/
def containsKey (m : Slots) (k : String) : Bool :=
  m.any (fun p => p.1 = k)

/-- Python `m.setdefault(k, v)`: if `k` is already a key the dict is unchanged,
otherwise `(k, v)` is appended in insertion order. -/
def setdefault (m : Slots) (k : String) (v : Option String) : Slots :=
  if containsKey m k then m else m ++ [(k, v)]

/-- Python `m[k] = v` on a dict: overwrite in place when the key exists,
append otherwise. -/
def dictSet (m : Slots) (k : String) (v : Option String) : Slots :=
  if containsKey m k then m.map (fun p => if p.1 = k then (k, v) else p)
  else m ++ [(k, v)]

/-- One gallery entry: `{id, url, public_id, category}` (src/main.py lines 94-98
and the dict literal at lines 261-266). -/
structure GalleryItem where
  id : String
  url : String
  public_id : String
  category : String
deriving DecidableEq, Repr

/-- A parsed JSON document as `load_content` sees it: each top-level field may
be absent (`none`) or present (`some _`); a present `heroVideo` is null or a
string, a present `slots` is a dict, a present `gallery` is a list. -/
structure Doc where
  heroVideo : Option (Option String)
  slots : Option Slots
  gallery : Option (List GalleryItem)
deriving DecidableEq, Repr

/-- The slot dict of `DEFAULT_CONTENT` (src/main.py lines 50-63): twelve fixed
keys, all null. -/
def defaultSlots : Slots :=
  [("servicio_1", none), ("servicio_2", none), ("servicio_3", none),
   ("servicio_4", none), ("about_img", none), ("team_group", none),
   ("staff_1", none), ("staff_2", none), ("staff_3", none),
   ("staff_4", none), ("staff_5", none), ("staff_6", none)]

/-- The fixed slot-key set, in insertion order. -/
def defaultSlotKeys : List String := defaultSlots.map (fun p => p.1)

/-- `DEFAULT_CONTENT` (src/main.py lines 48-65): null hero video, the twelve
null slots, empty gallery. -/
def DEFAULT_CONTENT : Doc :=
  { heroVideo := some none, slots := some defaultSlots, gallery := some [] }

/-- `VALID_SLOTS = set(DEFAULT_CONTENT["slots"].keys())` (src/main.py line 177). -/
def VALID_SLOTS : List String := defaultSlotKeys

/-- The persisted `content.json`: absent, present but unparseable (`json.load`
raises), or parseable to a document. -/
inductive FileState where
  | missing
  | corrupt
  | parsed (d : Doc)
deriving DecidableEq, Repr

/-- The slot-merging loop of `load_content` (src/main.py lines 78-81): for each
default key-value pair, create `data["slots"]` as an empty dict if the field is
missing, then `setdefault` the pair into it. -/
def mergeSlots (data : Option Slots) : Option Slots :=
  defaultSlots.foldl (fun dd kv => some (setdefault (dd.getD []) kv.1 kv.2)) data

/-- The defaulting block of `load_content` (src/main.py lines 77-85): backfill
missing slot keys, default a missing `gallery` to `[]` and a missing
`heroVideo` to null. -/
def mergeDefaults (data : Doc) : Doc :=
  { heroVideo := some (data.heroVideo.getD none),
    slots := mergeSlots data.slots,
    gallery := some (data.gallery.getD []) }

/-- `save_content` (src/main.py lines 88-91): serialize the whole document and
overwrite the persisted location.  `json.dump` output of a document parses back
to the same document, so the new file state is `parsed`. -/
def save_content (data : Doc) : FileState :=
  FileState.parsed data

/-- `load_content` (src/main.py lines 67-86), returning the possibly-changed
file state together with the document handed to the caller: if the file is
absent, write and return `DEFAULT_CONTENT` (early return, no merge); if
`json.load` raises, substitute `DEFAULT_CONTENT` and fall through to the merge;
otherwise merge defaults into the parsed data. -/
def load_content (fs : FileState) : FileState × Doc :=
  match fs with
  | FileState.missing => (save_content DEFAULT_CONTENT, DEFAULT_CONTENT)
  | FileState.corrupt => (FileState.corrupt, mergeDefaults DEFAULT_CONTENT)
  | FileState.parsed d => (FileState.parsed d, mergeDefaults d)

/-- Response shape of `GET /api/content` (src/main.py lines 100-103):
`heroVideo`, the full slot dict, the gallery list. -/
structure ContentResponse where
  heroVideo : Option String
  slots : Slots
  gallery : List GalleryItem
deriving DecidableEq, Repr

/-- `get_content` (src/main.py lines 129-139): load and project.  After
`load_content` every field is present, so the `getD` defaults are never
exercised. -/
def get_content (fs : FileState) : FileState × ContentResponse :=
  let ld := load_content fs
  (ld.1,
   { heroVideo := ld.2.heroVideo.getD none,
     slots := ld.2.slots.getD [],
     gallery := ld.2.gallery.getD [] })

/-- `get_gallery` (src/main.py lines 224-227): load and return the gallery. -/
def get_gallery (fs : FileState) : FileState × List GalleryItem :=
  let ld := load_content fs
  (ld.1, ld.2.gallery.getD [])

/-- A well-formed document in the sense of the spec's data model: all three
fields present and the slot key set exactly the fixed key set. -/
def wellFormed (d : Doc) : Bool :=
  d.heroVideo.isSome && d.gallery.isSome &&
  (match d.slots with
   | none => false
   | some s =>
     defaultSlotKeys.all (fun k => containsKey s k) &&
     s.all (fun kv => defaultSlotKeys.contains kv.1))

/-- Failure responses: `validation` is the request-validation rejection (HTTP
422) FastAPI produces when a required parameter — here the `Authorization`
header declared as `Header(...)` — is absent, before the handler body runs;
`http s d` is a `HTTPException(status_code=s, detail=d)` raised by the code. -/
inductive Err where
  | validation
  | http (status : Nat) (detail : String)
deriving DecidableEq, Repr

/-- An uploaded file: a name and its payload bytes. -/
structure UploadF where
  filename : String
  content : List Nat
deriving DecidableEq, Repr

/-- Python truthiness of a starlette `UploadFile` instance, as tested by the
`if not file:` guards: the class defines neither a boolean conversion nor a
length, so every instance is truthy, whatever its payload — even zero bytes. -/
def uploadFileTruthy (_file : UploadF) : Bool := true

/-- `verify_token` (src/main.py lines 38-41): the handler runs only when the
header equals exactly the string `Bearer ` followed by the configured token. -/
def verify_token (tok : String) (authorization : String) : Except Err Unit :=
  if authorization = "Bearer " ++ tok then Except.ok ()
  else Except.error (Err.http 401 "Unauthorized")

/-- The framework side of `Header(...)`: a missing required header is rejected
with a request-validation error before `verify_token` is called; a present one
is passed to `verify_token`. -/
def checkAuth (tok : String) (authorization : Option String) : Except Err Unit :=
  match authorization with
  | none => Except.error Err.validation
  | some a => verify_token tok a

deriving instance DecidableEq for Except

/-- What one endpoint call produced: the HTTP-level result, the file state
afterwards, and whether the media backend's Store (a cloudinary upload or a
local file write) and the content store's Save ran. -/
structure Outcome (α : Type) where
  resp : Except Err α
  fs : FileState
  storeCalled : Bool
  saveCalled : Bool
deriving DecidableEq, Repr

/-- `upload_hero_video` (src/main.py lines 142-174).  `storeRes` is what the
selected media backend returns for this payload: `ok (url, public_id)` or an
upload failure, which the handler converts to a 500.  Store runs before
Load/Save, matching the source order. -/
def upload_hero_video (tok : String) (authorization : Option String)
    (file : UploadF) (storeRes : Except String (String × String))
    (fs : FileState) : Outcome (String × String) :=
  match checkAuth tok authorization with
  | Except.error e => ⟨Except.error e, fs, false, false⟩
  | Except.ok _ =>
    if uploadFileTruthy file = false then
      ⟨Except.error (Err.http 400 "No file uploaded"), fs, false, false⟩
    else
      match storeRes with
      | Except.error e =>
        ⟨Except.error (Err.http 500 ("Cloudinary error: " ++ e)), fs, true, false⟩
      | Except.ok (url, public_id) =>
        let ld := load_content fs
        let d2 : Doc := { ld.2 with heroVideo := some (some url) }
        ⟨Except.ok (url, public_id), save_content d2, true, true⟩

/-- `upload_slot_image` (src/main.py lines 178-220): validate `slot_key`
against `VALID_SLOTS`, then the (ineffective) file guard, then Store, then
Load → set `slots[slot_key]` → Save. -/
def upload_slot_image (tok : String) (authorization : Option String)
    (slot_key : String) (file : UploadF)
    (storeRes : Except String (String × String)) (fs : FileState) :
    Outcome (String × String × String) :=
  match checkAuth tok authorization with
  | Except.error e => ⟨Except.error e, fs, false, false⟩
  | Except.ok _ =>
    if slot_key ∈ VALID_SLOTS then
      if uploadFileTruthy file = false then
        ⟨Except.error (Err.http 400 "No file uploaded"), fs, false, false⟩
      else
        match storeRes with
        | Except.error e =>
          ⟨Except.error (Err.http 500 ("Cloudinary error: " ++ e)), fs, true, false⟩
        | Except.ok (url, public_id) =>
          let ld := load_content fs
          let d2 : Doc :=
            { ld.2 with slots := some (dictSet (ld.2.slots.getD []) slot_key (some url)) }
          ⟨Except.ok (slot_key, url, public_id), save_content d2, true, true⟩
    else ⟨Except.error (Err.http 400 "slot_key inválido"), fs, false, false⟩

/-- The closed category list of `upload_gallery_image` (src/main.py line 238). -/
def GALLERY_CATEGORIES : List String :=
  ["damas", "caballeros", "ninos", "manicura", "pedicura"]

/-- `upload_gallery_image` (src/main.py lines 229-272): the (ineffective) file
guard, then category validation, then Store, then build the item with a fresh
uuid (`newId`), then Load → append → Save. -/
def upload_gallery_image (tok : String) (authorization : Option String)
    (category : String) (file : UploadF)
    (storeRes : Except String (String × String)) (newId : String)
    (fs : FileState) : Outcome GalleryItem :=
  match checkAuth tok authorization with
  | Except.error e => ⟨Except.error e, fs, false, false⟩
  | Except.ok _ =>
    if uploadFileTruthy file = false then
      ⟨Except.error (Err.http 400 "No file uploaded"), fs, false, false⟩
    else if category ∈ GALLERY_CATEGORIES then
      match storeRes with
      | Except.error e =>
        ⟨Except.error (Err.http 500 ("Cloudinary error: " ++ e)), fs, true, false⟩
      | Except.ok (url, public_id) =>
        let item : GalleryItem := ⟨newId, url, public_id, category⟩
        let ld := load_content fs
        let d2 : Doc := { ld.2 with gallery := some (ld.2.gallery.getD [] ++ [item]) }
        ⟨Except.ok item, save_content d2, true, true⟩
    else ⟨Except.error (Err.http 400 "Categoría inválida"), fs, false, false⟩

/-- `delete_gallery_image` (src/main.py lines 274-305): Load, find the first
gallery index with the given id (404 when none), best-effort media deletion
whose success or failure (`_mediaDeleteOk`) is swallowed by the bare
`except: pass`, then remove the item and Save.  `storeCalled` stays false:
this endpoint never uploads. -/
def delete_gallery_image (tok : String) (authorization : Option String)
    (item_id : String) (_mediaDeleteOk : Bool) (fs : FileState) :
    Outcome String :=
  match checkAuth tok authorization with
  | Except.error e => ⟨Except.error e, fs, false, false⟩
  | Except.ok _ =>
    let ld := load_content fs
    let gallery := ld.2.gallery.getD []
    match gallery.findIdx? (fun it => it.id = item_id) with
    | none => ⟨Except.error (Err.http 404 "Imagen no encontrada"), ld.1, false, false⟩
    | some idx =>
      let d2 : Doc := { ld.2 with gallery := some (gallery.eraseIdx idx) }
      ⟨Except.ok item_id, save_content d2, false, true⟩

/-- The top-level statements of src/main.py executed at import time, in source
order: each entry is (module-level names the statement reads when it executes,
names it binds).  Function and class bodies do not run at import, so a `def`
only binds its name; decorator expressions do run.  Only names defined in the
module itself are tracked — imported names are bound by the import statements
at the top. -/
def mainModuleStmts : List (List String × List String) :=
  [([], ["FastAPI", "File", "UploadFile", "HTTPException", "Depends", "Header", "Form",
         "CORSMiddleware", "HTMLResponse", "StaticFiles", "BaseModel",
         "List", "Optional", "Dict", "uuid4", "cloudinary", "os", "json",
         "threading", "Path"]),
   (["cloudinary", "os"], []),
   (["os"], ["USE_CLOUDINARY"]),
   (["BASE_DIR"], ["UPLOADS_DIR"]),
   (["UPLOADS_DIR"], []),
   (["os"], ["ADMIN_TOKEN"]),
   (["Header"], ["verify_token"]),
   (["Path"], ["BASE_DIR"]),
   (["BASE_DIR"], ["CONTENT_PATH"]),
   (["threading"], ["LOCK"]),
   ([], ["DEFAULT_CONTENT"]),
   ([], ["load_content"]),
   ([], ["save_content"]),
   (["BaseModel"], ["GalleryItem"]),
   (["BaseModel", "GalleryItem"], ["ContentResponse"]),
   (["FastAPI"], ["app"]),
   (["app", "CORSMiddleware"], []),
   (["app", "StaticFiles", "UPLOADS_DIR"], []),
   (["app", "HTMLResponse"], ["serve_panel"]),
   (["app", "ContentResponse"], ["get_content"]),
   (["app", "File", "Depends"], ["upload_hero_video"]),
   (["DEFAULT_CONTENT"], ["VALID_SLOTS"]),
   (["app", "Form", "File", "Depends"], ["upload_slot_image"]),
   (["app", "GalleryItem"], ["get_gallery"]),
   (["app", "Form", "File", "Depends"], ["upload_gallery_image"]),
   (["app", "Depends"], ["delete_gallery_image"])]

/-- Execute top-level statements in order over the set of already-bound names;
return the first name referenced before being bound (the `NameError`), or
`none` when initialization completes. -/
def firstUnboundUse : List (List String × List String) → List String → Option String
  | [], _ => none
  | (uses, binds) :: rest, bound =>
    match uses.find? (fun u => !(bound.contains u)) with
    | some u => some u
    | none => firstUnboundUse rest (bound ++ binds)

/-- Plain left fold of `setdefault`: what the merging loop does once the slot
dict exists. -/
def applySetdefaults (s : Slots) (l : Slots) : Slots :=
  l.foldl (fun acc kv => setdefault acc kv.1 kv.2) s

/-- A persisted document whose slot dict holds a single key outside the fixed
set: the self-healing merge backfills the twelve fixed keys but keeps the
stray one. -/
def bogusDoc : Doc :=
  { heroVideo := some none, slots := some [("bogus", none)], gallery := some [] }

/-- A well-formed document with a hero video and one gallery item. -/
def richDoc : Doc :=
  { heroVideo := some (some "https://cdn/x.mp4"),
    slots := some defaultSlots,
    gallery := some [⟨"g1", "https://cdn/a.jpg", "ref-a", "damas"⟩] }

/-- A nonempty upload used as concrete input. -/
def f0 : UploadF := ⟨"photo.jpg", [1, 2, 3]⟩

/-- A zero-byte upload. -/
def emptyFile : UploadF := ⟨"empty.bin", []⟩

lemma foldl_setdefault_some (l : Slots) (s : Slots) :
    l.foldl (fun dd kv => some (setdefault (dd.getD []) kv.1 kv.2)) (some s) =
      some (applySetdefaults s l) := by
  induction l generalizing s with
  | nil => rfl
  | cons kv t ih =>
    simp only [List.foldl_cons, applySetdefaults, Option.getD_some]
    exact ih (setdefault s kv.1 kv.2)

lemma mergeSlots_eq (data : Option Slots) :
    mergeSlots data = some (applySetdefaults (data.getD []) defaultSlots) := by
  cases data with
  | none => rfl
  | some s => exact foldl_setdefault_some defaultSlots s

lemma containsKey_append (m1 m2 : Slots) (k : String) :
    containsKey (m1 ++ m2) k = (containsKey m1 k || containsKey m2 k) := by
  simp [containsKey, List.any_append]

lemma containsKey_setdefault_self (s : Slots) (k : String) (v : Option String) :
    containsKey (setdefault s k v) k = true := by
  unfold setdefault
  split
  · assumption
  · simp [containsKey_append, containsKey]

lemma containsKey_setdefault_mono (s : Slots) (k2 : String) (v : Option String)
    (k : String) (h : containsKey s k = true) :
    containsKey (setdefault s k2 v) k = true := by
  unfold setdefault
  split
  · exact h
  · simp [containsKey_append, h]

lemma applySetdefaults_contains_mono :
    ∀ (l : Slots) (s : Slots) (k : String), containsKey s k = true →
      containsKey (applySetdefaults s l) k = true
  | [], _, _, h => h
  | kv :: t, s, k, h =>
    applySetdefaults_contains_mono t (setdefault s kv.1 kv.2) k
      (containsKey_setdefault_mono s kv.1 kv.2 k h)

lemma applySetdefaults_contains_of_mem :
    ∀ (l : Slots) (s : Slots) (kv : String × Option String), kv ∈ l →
      containsKey (applySetdefaults s l) kv.1 = true
  | [], _, kv, h => absurd h (List.not_mem_nil kv)
  | hd :: t, s, kv, h => by
    rcases List.mem_cons.mp h with h1 | h2
    · subst h1
      exact applySetdefaults_contains_mono t _ _ (containsKey_setdefault_self s kv.1 kv.2)
    · exact applySetdefaults_contains_of_mem t _ kv h2

lemma applySetdefaults_id :
    ∀ (l : Slots) (s : Slots), (∀ kv ∈ l, containsKey s kv.1 = true) →
      applySetdefaults s l = s
  | [], _, _ => rfl
  | hd :: t, s, h => by
    have h1 : setdefault s hd.1 hd.2 = s := by
      simp [setdefault, h hd (by simp)]
    show applySetdefaults (setdefault s hd.1 hd.2) t = s
    rw [h1]
    exact applySetdefaults_id t s (fun kv hkv => h kv (by simp [hkv]))

lemma containsKey_of_mem_keys {m : Slots} {k : String}
    (h : k ∈ m.map (fun p => p.1)) : containsKey m k = true := by
  rcases List.mem_map.mp h with ⟨kv, hkv, rfl⟩
  unfold containsKey
  rw [List.any_eq_true]
  exact ⟨kv, hkv, by simp⟩

lemma mergeSlots_contains {k : String} (data : Option Slots)
    (h : k ∈ defaultSlotKeys) :
    containsKey ((mergeSlots data).getD []) k = true := by
  simp only [mergeSlots_eq, Option.getD_some]
  rcases List.mem_map.mp h with ⟨kv, hkv, rfl⟩
  exact applySetdefaults_contains_of_mem defaultSlots _ kv hkv

lemma mergeSlots_of_present (s : Slots)
    (h : ∀ k ∈ defaultSlotKeys, containsKey s k = true) :
    mergeSlots (some s) = some s := by
  simp only [mergeSlots_eq, Option.getD_some]
  exact congrArg some (applySetdefaults_id defaultSlots s
    (fun kv hkv => h kv.1 (List.mem_map_of_mem _ hkv)))

lemma mergeDefaults_idem (d : Doc) :
    mergeDefaults (mergeDefaults d) = mergeDefaults d := by
  have hs : mergeSlots (mergeSlots d.slots) = mergeSlots d.slots := by
    obtain ⟨s1, hs1⟩ : ∃ s1, mergeSlots d.slots = some s1 :=
      ⟨_, mergeSlots_eq d.slots⟩
    rw [hs1]
    apply mergeSlots_of_present
    intro k hk
    have h2 := mergeSlots_contains (k := k) d.slots hk
    rw [hs1] at h2
    exact h2
  simp only [mergeDefaults, Option.getD_some]
  rw [hs]

lemma mergeDefaults_of_wellFormed {d : Doc} (h : wellFormed d = true) :
    mergeDefaults d = d := by
  cases d with
  | mk hv sl gal =>
    cases sl with
    | none => simp [wellFormed] at h
    | some s =>
      simp only [wellFormed, Bool.and_eq_true, List.all_eq_true] at h
      obtain ⟨⟨hHero, hGal⟩, hKeys, _hSub⟩ := h
      obtain ⟨hv0, rfl⟩ := Option.isSome_iff_exists.mp hHero
      obtain ⟨g0, rfl⟩ := Option.isSome_iff_exists.mp hGal
      simp only [mergeDefaults, Option.getD_some]
      rw [mergeSlots_of_present s hKeys]

/-- Claim C1 as stated is false: the key set of the slots of a document
returned by `load_content` need not equal the fixed twelve-key set — a key
outside the fixed set that was present in the persisted file survives the
merge, here the key `bogus`. -/
theorem slots_key_set_not_exact :
    containsKey ((load_content (FileState.parsed bogusDoc)).2.slots.getD []) "bogus" = true ∧
    "bogus" ∉ defaultSlotKeys := by decide

/-- Claim C1 (amended): for every document returned by `load_content`, every
key of the fixed twelve-key slot set is present in its slots mapping; keys
outside the fixed set that the persisted file contained are retained, so the
key set contains but need not equal the fixed set. -/
theorem load_slots_superset (fs : FileState) (k : String)
    (h : k ∈ defaultSlotKeys) :
    containsKey ((load_content fs).2.slots.getD []) k = true := by
  cases fs with
  | missing => exact containsKey_of_mem_keys h
  | corrupt => exact mergeSlots_contains _ h
  | parsed d => exact mergeSlots_contains _ h

theorem load_slots_superset_witness :
    "about_img" ∈ defaultSlotKeys ∧
    containsKey ((load_content (FileState.parsed bogusDoc)).2.slots.getD []) "about_img" = true :=
  ⟨by decide, load_slots_superset (FileState.parsed bogusDoc) "about_img" (by decide)⟩

/-- Claim C2: when no persisted document exists, `load_content` writes the
default document and returns it, and `get_content` on the fresh environment
answers with a null hero video, the twelve null slots and an empty gallery. -/
theorem load_bootstrap_default :
    load_content FileState.missing = (save_content DEFAULT_CONTENT, DEFAULT_CONTENT) ∧
    save_content DEFAULT_CONTENT = FileState.parsed DEFAULT_CONTENT ∧
    (get_content FileState.missing).2 =
      { heroVideo := none, slots := defaultSlots, gallery := [] } ∧
    defaultSlots.all (fun kv => kv.2 = none) = true := by decide

/-- Claim C3: saving a well-formed document and loading reads back the very
same document, field for field, and leaves the file as the save wrote it. -/
theorem save_load_roundtrip (d : Doc) (h : wellFormed d = true) :
    load_content (save_content d) = (save_content d, d) := by
  show (FileState.parsed d, mergeDefaults d) = (FileState.parsed d, d)
  rw [mergeDefaults_of_wellFormed h]

theorem save_load_roundtrip_witness :
    wellFormed DEFAULT_CONTENT = true ∧
    load_content (save_content DEFAULT_CONTENT) =
      (save_content DEFAULT_CONTENT, DEFAULT_CONTENT) :=
  ⟨by decide, save_load_roundtrip DEFAULT_CONTENT (by decide)⟩

/-- Claim C4: when the persisted file exists but is unparseable, `load_content`
returns the default document (null hero video, all slots null, empty gallery)
and leaves the corrupt file in place — no write happens on this path. -/
theorem load_corrupt_degrades :
    load_content FileState.corrupt = (FileState.corrupt, DEFAULT_CONTENT) ∧
    DEFAULT_CONTENT.heroVideo = some none ∧
    DEFAULT_CONTENT.slots = some defaultSlots ∧
    DEFAULT_CONTENT.gallery = some ([] : List GalleryItem) := by decide

/-- Claim C5: the default-merge of `load_content` is the identity on
well-formed documents, and applying it twice always equals applying it once. -/
theorem merge_defaults_idempotent :
    (∀ d : Doc, wellFormed d = true → mergeDefaults d = d) ∧
    (∀ d : Doc, mergeDefaults (mergeDefaults d) = mergeDefaults d) :=
  ⟨fun _ h => mergeDefaults_of_wellFormed h, mergeDefaults_idem⟩

theorem merge_defaults_idempotent_witness :
    wellFormed richDoc = true ∧ mergeDefaults richDoc = richDoc :=
  ⟨by decide, merge_defaults_idempotent.1 richDoc (by decide)⟩

/-- Claim C6: with a correct bearer token, an unknown `slot_key` and an unknown
gallery `category` are each rejected with the endpoint's 400 validation error;
the file state is unchanged and neither Store nor Save runs. -/
theorem invalid_inputs_rejected (tok sk cat : String) (file : UploadF)
    (storeRes : Except String (String × String)) (newId : String)
    (fs : FileState) (hsk : sk ∉ VALID_SLOTS) (hcat : cat ∉ GALLERY_CATEGORIES) :
    upload_slot_image tok (some ("Bearer " ++ tok)) sk file storeRes fs =
      ⟨Except.error (Err.http 400 "slot_key inválido"), fs, false, false⟩ ∧
    upload_gallery_image tok (some ("Bearer " ++ tok)) cat file storeRes newId fs =
      ⟨Except.error (Err.http 400 "Categoría inválida"), fs, false, false⟩ := by
  constructor
  · simp [upload_slot_image, checkAuth, verify_token, hsk]
  · simp [upload_gallery_image, checkAuth, verify_token, uploadFileTruthy, hcat]

theorem invalid_inputs_rejected_witness :
    "not_a_real_slot" ∉ VALID_SLOTS ∧
    "invalid_category" ∉ GALLERY_CATEGORIES ∧
    upload_slot_image "123456" (some "Bearer 123456") "not_a_real_slot" f0
        (Except.ok ("u", "p")) FileState.corrupt =
      ⟨Except.error (Err.http 400 "slot_key inválido"), FileState.corrupt, false, false⟩ ∧
    upload_gallery_image "123456" (some "Bearer 123456") "invalid_category" f0
        (Except.ok ("u", "p")) "n1" FileState.corrupt =
      ⟨Except.error (Err.http 400 "Categoría inválida"), FileState.corrupt, false, false⟩ := by
  refine ⟨by decide, by decide, ?_, ?_⟩
  · exact (invalid_inputs_rejected "123456" "not_a_real_slot" "invalid_category" f0
      (Except.ok ("u", "p")) "n1" FileState.corrupt (by decide) (by decide)).1
  · exact (invalid_inputs_rejected "123456" "not_a_real_slot" "invalid_category" f0
      (Except.ok ("u", "p")) "n1" FileState.corrupt (by decide) (by decide)).2

/-- Claim C7 fails on the code: the guards `if not file:` test the truthiness
of the `UploadFile` object, which is always truthy, so a zero-byte payload is
not rejected — the authorized hero-video call with an empty file stores the
upload and saves the document, and the slot and gallery endpoints likewise
reach Store.  The guard's own error message ("No file uploaded") shows the
intended check; it is dead code. -/
theorem empty_file_not_rejected :
    uploadFileTruthy emptyFile = true ∧
    emptyFile.content = [] ∧
    upload_hero_video "123456" (some "Bearer 123456") emptyFile
        (Except.ok ("u", "p")) (FileState.parsed DEFAULT_CONTENT) =
      ⟨Except.ok ("u", "p"),
       FileState.parsed { DEFAULT_CONTENT with heroVideo := some (some "u") },
       true, true⟩ ∧
    (upload_slot_image "123456" (some "Bearer 123456") "servicio_1" emptyFile
        (Except.ok ("u", "p")) (FileState.parsed DEFAULT_CONTENT)).storeCalled = true ∧
    (upload_gallery_image "123456" (some "Bearer 123456") "damas" emptyFile
        (Except.ok ("u", "p")) "id1" (FileState.parsed DEFAULT_CONTENT)).storeCalled = true := by
  decide

/-- Claim C8 as stated is false on one listed case: a request with no
`Authorization` header at all is rejected by FastAPI's request validation
(the `Header(...)` parameter is required), not with the 401 authorization
error the handler raises for a present-but-wrong header. -/
theorem missing_header_not_401 :
    (upload_hero_video "123456" none f0 (Except.ok ("u", "p")) FileState.corrupt).resp =
      Except.error Err.validation ∧
    Err.validation ≠ Err.http 401 "Unauthorized" := by decide

/-- Claim C8 (amended): a mutating endpoint reaches its Store/Save effects
only behind a header equal to exactly `Bearer ` + token.  A missing header is
rejected by request validation, a present non-matching header with the 401
authorization error; both leave the file state unchanged with no Store and no
Save.  With the correct header (and otherwise valid input) the effects do
run. -/
theorem auth_gate (tok : String) :
    (∀ file storeRes fs, upload_hero_video tok none file storeRes fs =
        ⟨Except.error Err.validation, fs, false, false⟩) ∧
    (∀ sk file storeRes fs, upload_slot_image tok none sk file storeRes fs =
        ⟨Except.error Err.validation, fs, false, false⟩) ∧
    (∀ cat file storeRes newId fs,
      upload_gallery_image tok none cat file storeRes newId fs =
        ⟨Except.error Err.validation, fs, false, false⟩) ∧
    (∀ iid mdel fs, delete_gallery_image tok none iid mdel fs =
        ⟨Except.error Err.validation, fs, false, false⟩) ∧
    (∀ a, a ≠ "Bearer " ++ tok →
      (∀ file storeRes fs, upload_hero_video tok (some a) file storeRes fs =
          ⟨Except.error (Err.http 401 "Unauthorized"), fs, false, false⟩) ∧
      (∀ sk file storeRes fs, upload_slot_image tok (some a) sk file storeRes fs =
          ⟨Except.error (Err.http 401 "Unauthorized"), fs, false, false⟩) ∧
      (∀ cat file storeRes newId fs,
        upload_gallery_image tok (some a) cat file storeRes newId fs =
          ⟨Except.error (Err.http 401 "Unauthorized"), fs, false, false⟩) ∧
      (∀ iid mdel fs, delete_gallery_image tok (some a) iid mdel fs =
          ⟨Except.error (Err.http 401 "Unauthorized"), fs, false, false⟩)) ∧
    (∀ file url pid fs,
      (upload_hero_video tok (some ("Bearer " ++ tok)) file
          (Except.ok (url, pid)) fs).storeCalled = true ∧
      (upload_hero_video tok (some ("Bearer " ++ tok)) file
          (Except.ok (url, pid)) fs).saveCalled = true) ∧
    (∀ sk, sk ∈ VALID_SLOTS → ∀ file url pid fs,
      (upload_slot_image tok (some ("Bearer " ++ tok)) sk file
          (Except.ok (url, pid)) fs).saveCalled = true) ∧
    (∀ cat, cat ∈ GALLERY_CATEGORIES → ∀ file url pid newId fs,
      (upload_gallery_image tok (some ("Bearer " ++ tok)) cat file
          (Except.ok (url, pid)) newId fs).saveCalled = true) ∧
    (∀ iid mdel d g, d.gallery = some g →
      g.any (fun it => it.id = iid) = true →
      (delete_gallery_image tok (some ("Bearer " ++ tok)) iid mdel
          (FileState.parsed d)).saveCalled = true) := by
  refine ⟨?_, ?_, ?_, ?_, ?_, ?_, ?_, ?_, ?_⟩
  · intro file storeRes fs
    simp [upload_hero_video, checkAuth]
  · intro sk file storeRes fs
    simp [upload_slot_image, checkAuth]
  · intro cat file storeRes newId fs
    simp [upload_gallery_image, checkAuth]
  · intro iid mdel fs
    simp [delete_gallery_image, checkAuth]
  · intro a ha
    refine ⟨?_, ?_, ?_, ?_⟩
    · intro file storeRes fs
      simp [upload_hero_video, checkAuth, verify_token, ha]
    · intro sk file storeRes fs
      simp [upload_slot_image, checkAuth, verify_token, ha]
    · intro cat file storeRes newId fs
      simp [upload_gallery_image, checkAuth, verify_token, ha]
    · intro iid mdel fs
      simp [delete_gallery_image, checkAuth, verify_token, ha]
  · intro file url pid fs
    constructor <;> simp [upload_hero_video, checkAuth, verify_token, uploadFileTruthy]
  · intro sk hsk file url pid fs
    simp [upload_slot_image, checkAuth, verify_token, uploadFileTruthy, hsk]
  · intro cat hcat file url pid newId fs
    simp [upload_gallery_image, checkAuth, verify_token, uploadFileTruthy, hcat]
  · intro iid mdel d g hg hany
    have hsome : ((d.gallery.getD []).findIdx?
        (fun it => it.id = iid)).isSome = true := by
      rw [List.findIdx?_isSome, hg]
      exact hany
    obtain ⟨idx, hidx⟩ := Option.isSome_iff_exists.mp hsome
    simp [delete_gallery_image, checkAuth, verify_token, load_content,
      mergeDefaults, hidx]

theorem auth_gate_witness :
    upload_hero_video "123456" none f0 (Except.ok ("u", "p")) FileState.corrupt =
      ⟨Except.error Err.validation, FileState.corrupt, false, false⟩ ∧
    upload_hero_video "123456" (some "Bearer wrong") f0 (Except.ok ("u", "p"))
        FileState.corrupt =
      ⟨Except.error (Err.http 401 "Unauthorized"), FileState.corrupt, false, false⟩ ∧
    (upload_hero_video "123456" (some "Bearer 123456") f0 (Except.ok ("u", "p"))
        FileState.corrupt).saveCalled = true ∧
    (upload_slot_image "123456" (some "Bearer 123456") "about_img" f0
        (Except.ok ("u", "p")) FileState.corrupt).saveCalled = true ∧
    (upload_gallery_image "123456" (some "Bearer 123456") "damas" f0
        (Except.ok ("u", "p")) "n1" FileState.corrupt).saveCalled = true ∧
    (delete_gallery_image "123456" (some "Bearer 123456") "g1" true
        (FileState.parsed richDoc)).saveCalled = true := by
  obtain ⟨h1, h2, h3, h4, h5, h6, h7, h8, h9⟩ := auth_gate "123456"
  exact ⟨h1 f0 (Except.ok ("u", "p")) FileState.corrupt,
    (h5 "Bearer wrong" (by decide)).1 f0 (Except.ok ("u", "p")) FileState.corrupt,
    (h6 f0 "u" "p" FileState.corrupt).2,
    h7 "about_img" (by decide) f0 "u" "p" FileState.corrupt,
    h8 "damas" (by decide) f0 "u" "p" "n1" FileState.corrupt,
    h9 "g1" true richDoc _ rfl (by decide)⟩

lemma findIdx?_first {α : Type} (p : α → Bool) (pre : List α) (X : α)
    (post : List α) (hpre : ∀ x ∈ pre, p x = false) (hX : p X = true) :
    (pre ++ X :: post).findIdx? p = some pre.length := by
  induction pre with
  | nil => simp [hX]
  | cons a t ih =>
    have ha : p a = false := hpre a (by simp)
    simp [List.findIdx?_cons, ha, List.findIdx?_succ,
      ih (fun x hx => hpre x (by simp [hx]))]

lemma delete_notfound (tok iid : String) (mdel : Bool) (d : Doc)
    (g : List GalleryItem) (hg : d.gallery = some g)
    (habs : ∀ it ∈ g, it.id ≠ iid) :
    delete_gallery_image tok (some ("Bearer " ++ tok)) iid mdel
        (FileState.parsed d) =
      ⟨Except.error (Err.http 404 "Imagen no encontrada"),
       FileState.parsed d, false, false⟩ := by
  have hnone : g.findIdx? (fun it => it.id = iid) = none :=
    List.findIdx?_eq_none_iff.mpr (fun x hx => by simp [habs x hx])
  simp [delete_gallery_image, checkAuth, verify_token, load_content,
    mergeDefaults, hg, hnone]

lemma delete_found (tok iid : String) (mdel : Bool) (d : Doc)
    (pre post : List GalleryItem) (X : GalleryItem)
    (hg : d.gallery = some (pre ++ X :: post)) (hX : X.id = iid)
    (hpre : ∀ it ∈ pre, it.id ≠ iid) :
    delete_gallery_image tok (some ("Bearer " ++ tok)) iid mdel
        (FileState.parsed d) =
      ⟨Except.ok iid,
       FileState.parsed { mergeDefaults d with gallery := some (pre ++ post) },
       false, true⟩ := by
  have hfind : (pre ++ X :: post).findIdx? (fun it => it.id = iid) =
      some pre.length := by
    apply findIdx?_first
    · intro x hx
      simp [hpre x hx]
    · simp [hX]
  have herase : (pre ++ X :: post).eraseIdx pre.length = pre ++ post := by
    rw [List.eraseIdx_append_of_length_le (Nat.le_refl pre.length)]
    simp
  simp [delete_gallery_image, checkAuth, verify_token, load_content,
    mergeDefaults, hg, hfind, herase, save_content]

/-- Claim C9: on a persisted document, deleting an absent gallery id fails
with the 404 not-found error, saves nothing and leaves the document unchanged;
deleting a present id removes exactly that item, saves, and returns the id —
whatever the swallowed media-deletion outcome `mdel` — and a second delete of
the same id then fails with 404. -/
theorem delete_gallery_correct (tok iid : String) (mdel : Bool) (d : Doc)
    (g pre post : List GalleryItem) (X : GalleryItem) :
    (d.gallery = some g → (∀ it ∈ g, it.id ≠ iid) →
      delete_gallery_image tok (some ("Bearer " ++ tok)) iid mdel
          (FileState.parsed d) =
        ⟨Except.error (Err.http 404 "Imagen no encontrada"),
         FileState.parsed d, false, false⟩) ∧
    (d.gallery = some (pre ++ X :: post) → X.id = iid →
     (∀ it ∈ pre, it.id ≠ iid) → (∀ it ∈ post, it.id ≠ iid) →
      delete_gallery_image tok (some ("Bearer " ++ tok)) iid mdel
          (FileState.parsed d) =
        ⟨Except.ok iid,
         FileState.parsed { mergeDefaults d with gallery := some (pre ++ post) },
         false, true⟩ ∧
      delete_gallery_image tok (some ("Bearer " ++ tok)) iid mdel
          (FileState.parsed { mergeDefaults d with gallery := some (pre ++ post) }) =
        ⟨Except.error (Err.http 404 "Imagen no encontrada"),
         FileState.parsed { mergeDefaults d with gallery := some (pre ++ post) },
         false, false⟩) := by
  constructor
  · intro hg habs
    exact delete_notfound tok iid mdel d g hg habs
  · intro hg hX hpre hpost
    constructor
    · exact delete_found tok iid mdel d pre post X hg hX hpre
    · apply delete_notfound tok iid mdel _ (pre ++ post) rfl
      intro it hit
      rcases List.mem_append.mp hit with h1 | h2
      · exact hpre it h1
      · exact hpost it h2

theorem delete_gallery_correct_witness :
    delete_gallery_image "123456" (some "Bearer 123456") "g1" false
        (FileState.parsed richDoc) =
      ⟨Except.ok "g1",
       FileState.parsed { mergeDefaults richDoc with gallery := some ([] ++ []) },
       false, true⟩ ∧
    delete_gallery_image "123456" (some "Bearer 123456") "g1" false
        (FileState.parsed { mergeDefaults richDoc with gallery := some ([] ++ []) }) =
      ⟨Except.error (Err.http 404 "Imagen no encontrada"),
       FileState.parsed { mergeDefaults richDoc with gallery := some ([] ++ []) },
       false, false⟩ :=
  (delete_gallery_correct "123456" "g1" false richDoc [] [] []
      ⟨"g1", "https://cdn/a.jpg", "ref-a", "damas"⟩).2
    rfl rfl (by simp) (by simp)

/-- Claim C10 fails on the code: the initializer of `UPLOADS_DIR`
(src/main.py line 31) reads `BASE_DIR`, which is first bound at line 44, so
executing the module's top-level statements hits an unbound name — importing
the module raises `NameError` and the program cannot start. -/
theorem module_init_name_error :
    firstUnboundUse mainModuleStmts [] = some "BASE_DIR" := by decide

end SecretSpot
